import Mathlib

/-!
Verification of the corpus-construction and record-summarization core of
`src/build_database.py` (functions `parse_patient_fhir_bundle`,
`load_patient_data` and the assembly/guard portion of `main`).

Modelling conventions, mirroring the Python source:
* A parsed FHIR resource is a tagged variant `ClinicalResource` carrying
  exactly the fields the source reads.  Optional fields of the underlying
  pydantic models are `Option`s: a pydantic model always *has* the
  attribute, holding `None` when the field is absent from the JSON.
* Python attribute access on `None` (e.g. `resource.name[0]` when `name`
  is `None`, `resource.code.text` when `code` is `None`,
  `resource.birthDate.isoformat()` when `birthDate` is `None`) raises; a
  raise inside the `for` loop of `parse_patient_fhir_bundle` is modelled
  as `Except.error ()`.  The function's surrounding `try/except` that
  returns `None` is the final `Except → Option` collapse.
* An f-string rendering of a `None` value prints the literal `"None"`
  (`pyStr`).
* Dates are carried as the strings their `isoformat()` produces.
* A file whose read, JSON decode or `Bundle.parse_obj` fails (including a
  bundle with no `entry` list) is the input `none` to
  `parse_patient_fhir_bundle`.
-/

/-- One element of a pydantic `HumanName`: the source reads `name.given`
(joined by spaces) and `name.family`. -/
structure HumanName where
  given : Option (List String)
  family : Option String
deriving DecidableEq

/-- A pydantic `CodeableConcept`: the source only reads its `text`. -/
structure CodeableConcept where
  text : Option String
deriving DecidableEq

/-- A pydantic `Quantity`: the source renders `value` and `unit` through an
f-string, so they are carried as their rendered strings. -/
structure Quantity where
  value : String
  unit : String
deriving DecidableEq

/-- The tagged variant of resource kinds the loop of
`parse_patient_fhir_bundle` dispatches on via `resource.resource_type`;
`other` is every kind with no branch. -/
inductive ClinicalResource where
  | patient (id : String) (name : Option (List HumanName))
      (birthDate : Option String) (gender : Option String)
  | condition (code : Option CodeableConcept) (onsetDateTime : Option String)
  | medicationRequest (medicationCodeableConcept : Option CodeableConcept)
  | observation (code : Option CodeableConcept) (valueQuantity : Option Quantity)
  | other
deriving DecidableEq

/-- Python's f-string rendering of an optional string: `None` prints as
the literal text `"None"`. -/
def pyStr : Option String → String
  | none => "None"
  | some s => s

/-- The fixed Observation allow-list of
`src/build_database.py` line 68. -/
def allowList : List String :=
  ["Blood Pressure", "Body Mass Index", "Hemoglobin A1c/Hemoglobin.total in Blood"]

/-- The `(id, text)` pair the pipeline indexes; the source builds it as the
dict `{"id": ..., "content": ...}` (braces in the Python, not here). -/
structure CorpusUnit where
  id : String
  content : String
deriving DecidableEq

/-- One iteration of the `for entry in bundle.entry` loop of
`parse_patient_fhir_bundle` (lines 45-73).  The state is the pair
`(patient_id, patient_summary)`.  `Except.error ()` is a Python exception
escaping the loop body:
* `Patient`: `resource.name[0]` raises when `name` is `None` or empty;
  `" ".join(name.given)` raises when `given` is `None`;
  `resource.birthDate.isoformat()` raises when `birthDate` is `None`;
  `family` and `gender` render through the f-string (`"None"` if absent).
  `patient_id` is reassigned on every Patient resource.
* `Condition`: `resource.code.text` raises when `code` is `None`; the
  `getattr` chain turns an absent `onsetDateTime` into `"N/A"`.
* `MedicationRequest`: the `getattr` chain yields `"Unknown Medication"`
  only when `medicationCodeableConcept` is absent; when the concept is
  present, its `text` attribute exists on the pydantic model, so the
  default is not used and an absent text renders as `"None"`.
* `Observation`: `hasattr(resource.code, 'text')` is `False` when `code`
  is `None` (skip); an absent text is never in the allow-list (skip);
  otherwise the line appears only for allow-listed labels, with the
  value defaulting to `"N/A"` when `valueQuantity` is absent. -/
def processResource (st : String × List String) :
    ClinicalResource → Except Unit (String × List String)
  | .patient id name birthDate gender =>
    match name with
    | none => Except.error ()
    | some [] => Except.error ()
    | some (n :: _) =>
      match n.given with
      | none => Except.error ()
      | some given =>
        match birthDate with
        | none => Except.error ()
        | some bd =>
          Except.ok (id, st.2 ++
            ["Patient Record ID: " ++ id,
             "Name: " ++ " ".intercalate given ++ " " ++ pyStr n.family ++
               ", DOB: " ++ bd ++ ", Gender: " ++ pyStr gender])
  | .condition code onsetDateTime =>
    match code with
    | none => Except.error ()
    | some c =>
      Except.ok (st.1, st.2 ++
        ["Condition: " ++ pyStr c.text ++ " (Onset: " ++
          (match onsetDateTime with
           | none => "N/A"
           | some d => d) ++ ")"])
  | .medicationRequest m =>
    Except.ok (st.1, st.2 ++
      ["Medication: " ++
        (match m with
         | none => "Unknown Medication"
         | some c => pyStr c.text)])
  | .observation code valueQuantity =>
    match code with
    | none => Except.ok st
    | some c =>
      match c.text with
      | none => Except.ok st
      | some t =>
        if t ∈ allowList then
          Except.ok (st.1, st.2 ++
            ["Observation: " ++ t ++ " - " ++
              (match valueQuantity with
               | none => "N/A"
               | some q => q.value ++ " " ++ q.unit)])
        else Except.ok st
  | .other => Except.ok st

/-- The whole `for` loop: resources processed in stored order, a raise
anywhere aborting the rest. -/
def processEntries (st : String × List String) :
    List ClinicalResource → Except Unit (String × List String)
  | [] => Except.ok st
  | r :: rs =>
    match processResource st r with
    | Except.error e => Except.error e
    | Except.ok st2 => processEntries st2 rs

/-- The body of the `try` block of `parse_patient_fhir_bundle` (lines
37-76): input `none` is a failed read/decode/`Bundle.parse_obj`; the state
starts at `("Unknown", [])` and the summary is newline-joined. -/
def parseBody (input : Option (List ClinicalResource)) : Except Unit CorpusUnit :=
  match input with
  | none => Except.error ()
  | some entries =>
    match processEntries ("Unknown", []) entries with
    | Except.error e => Except.error e
    | Except.ok (pid, summary) =>
      Except.ok ⟨pid, "\n".intercalate summary⟩

/-- `parse_patient_fhir_bundle` (lines 34-80): the `except Exception`
handler maps every raise to `None`. -/
def parse_patient_fhir_bundle (input : Option (List ClinicalResource)) :
    Option CorpusUnit :=
  match parseBody input with
  | Except.ok u => some u
  | Except.error _ => none

/-- `load_patient_data` (lines 82-97): each matching file is parsed and
the result kept when truthy; the returned dict is a non-empty dict, hence
always truthy, so exactly the non-`None` results are kept. -/
def load_patient_data (files : List (Option (List ClinicalResource))) :
    List CorpusUnit :=
  files.filterMap parse_patient_fhir_bundle

/-- Line 106 of `main`: `all_docs = medical_docs + patient_docs`, plain
list concatenation. -/
def assemble (medical patientDocs : List CorpusUnit) : List CorpusUnit :=
  medical ++ patientDocs

/-- The observable outcome of `main` after the documents are loaded:
either the empty-corpus early return of lines 108-110 (a logged warning,
then `return` — indexing never runs), or the indexing call of lines
124-137 with the `ids` and `contents` lists it passes on. -/
inductive MainOutcome where
  | emptyExit
  | indexed (ids : List String) (contents : List String)
deriving DecidableEq

/-- Lines 104-137 of `main`, given the two loaded document lists.  The
result lives in `Except String` so that a Python `raise` escaping `main`
would be an `Except.error`; the source raises nothing on this path:
`if not all_docs` logs a warning and returns normally. -/
def mainRun (medical patientDocs : List CorpusUnit) : Except String MainOutcome :=
  let allDocs := assemble medical patientDocs
  if allDocs.isEmpty then
    Except.ok MainOutcome.emptyExit
  else
    Except.ok (MainOutcome.indexed (allDocs.map CorpusUnit.id)
      (allDocs.map CorpusUnit.content))

/-- The id a resource assigns to `patient_id`, if any: only Patient
resources assign it. -/
def patientIdOf : ClinicalResource → Option String
  | .patient id _ _ _ => some id
  | _ => none

/-- Prepending a head shifts `getLast?`'s default: the last element of
`a :: l` with default `d` is the last element of `l` with default `a`. -/
theorem lastGetDCons (l : List String) :
    ∀ a d : String, ((a :: l).getLast?).getD d = (l.getLast?).getD a := by
  induction l with
  | nil => intro a d; rfl
  | cons b m ih =>
    intro a d
    rw [List.getLast?_cons_cons, ih b d, ih b a]

/-- When one loop iteration succeeds, the resulting `patient_id` is the
resource's id for a Patient resource and the incoming `patient_id`
otherwise. -/
theorem processResource_fst (st : String × List String) (r : ClinicalResource)
    (st2 : String × List String) (h : processResource st r = Except.ok st2) :
    st2.1 = (patientIdOf r).getD st.1 := by
  cases r with
  | patient id name birthDate gender =>
    cases name with
    | none => simp [processResource] at h
    | some nl =>
      cases nl with
      | nil => simp [processResource] at h
      | cons n rest =>
        cases hg : n.given with
        | none => simp [processResource, hg] at h
        | some g =>
          cases birthDate with
          | none => simp [processResource, hg] at h
          | some bd =>
            simp [processResource, hg] at h
            rw [← h]
            simp [patientIdOf]
  | condition code onsetDateTime =>
    cases code with
    | none => simp [processResource] at h
    | some c =>
      simp [processResource] at h
      rw [← h]
      simp [patientIdOf]
  | medicationRequest m =>
    simp [processResource] at h
    rw [← h]
    simp [patientIdOf]
  | observation code valueQuantity =>
    cases code with
    | none =>
      simp [processResource] at h
      rw [← h]
      simp [patientIdOf]
    | some c =>
      cases ht : c.text with
      | none =>
        simp [processResource, ht] at h
        rw [← h]
        simp [patientIdOf]
      | some t =>
        by_cases hmem : t ∈ allowList
        · simp [processResource, ht, hmem] at h
          rw [← h]
          simp [patientIdOf]
        · simp [processResource, ht, hmem] at h
          rw [← h]
          simp [patientIdOf]
  | other =>
    simp [processResource] at h
    rw [← h]
    simp [patientIdOf]

/-- When the whole loop succeeds, the final `patient_id` is the id of the
last Patient resource, defaulting to the incoming state's id. -/
theorem processEntries_id (entries : List ClinicalResource) :
    ∀ (st : String × List String) (pid : String) (lines : List String),
      processEntries st entries = Except.ok (pid, lines) →
      pid = ((entries.filterMap patientIdOf).getLast?).getD st.1 := by
  induction entries with
  | nil =>
    intro st pid lines h
    simp [processEntries] at h
    rw [h]
    rfl
  | cons r rs ih =>
    intro st pid lines h
    cases hr : processResource st r with
    | error e => simp [processEntries, hr] at h
    | ok st2 =>
      simp only [processEntries, hr] at h
      have hfst := processResource_fst st r st2 hr
      have hpid := ih st2 pid lines h
      cases hio : patientIdOf r with
      | none =>
        rw [hio] at hfst
        simp only [Option.getD_none] at hfst
        simp [List.filterMap_cons, hio, hpid, hfst]
      | some i =>
        rw [hio] at hfst
        simp only [Option.getD_some] at hfst
        simp only [List.filterMap_cons, hio]
        rw [lastGetDCons]
        rw [hpid, hfst]

/-- C1 counterexample: a record with two Patient resources, ids "A" then
"B".  The summarized unit's id is "B" — the last Patient encountered, not
the first — and the second Patient contributes a second identifier line,
not only its demographic line. -/
theorem C1_counterexample :
    parse_patient_fhir_bundle (some
      [.patient "A" (some [⟨some ["Jane"], some "Doe"⟩]) (some "2020-01-05") (some "female"),
       .patient "B" (some [⟨some ["John"], some "Roe"⟩]) (some "2019-02-06") (some "male")]) =
      some ⟨"B", "Patient Record ID: A\nName: Jane Doe, DOB: 2020-01-05, Gender: female\nPatient Record ID: B\nName: John Roe, DOB: 2019-02-06, Gender: male"⟩ ∧
    ("B" : String) ≠ "A" :=
  ⟨rfl, by decide⟩

/-- C1 (amended): whenever summarization returns a unit, its id is the id
of the LAST Patient-kind resource encountered, or the sentinel "Unknown"
when the record contains no Patient resource; every Patient resource
re-sets the identifier (and contributes both its identifier line and its
demographic line). -/
theorem C1_amended_theorem (entries : List ClinicalResource) (u : CorpusUnit)
    (h : parse_patient_fhir_bundle (some entries) = some u) :
    u.id = ((entries.filterMap patientIdOf).getLast?).getD "Unknown" := by
  simp only [parse_patient_fhir_bundle, parseBody] at h
  cases hp : processEntries ("Unknown", []) entries with
  | error e => rw [hp] at h; simp at h
  | ok st2 =>
    obtain ⟨pid, summary⟩ := st2
    rw [hp] at h
    simp at h
    have hid := processEntries_id entries ("Unknown", []) pid summary hp
    rw [← h]
    exact hid

/-- C1 witness: a concrete record with one Patient of id "7" parses to a
unit whose id is "7", the last (and only) Patient id. -/
theorem C1_amended_witness :
    parse_patient_fhir_bundle (some
        [.patient "7" (some [⟨some ["A"], some "B"⟩]) (some "2000-01-01") none,
         .other]) =
      some ⟨"7", "Patient Record ID: 7\nName: A B, DOB: 2000-01-01, Gender: None"⟩ ∧
    (⟨"7", "Patient Record ID: 7\nName: A B, DOB: 2000-01-01, Gender: None"⟩ : CorpusUnit).id =
      ((([ClinicalResource.patient "7" (some [⟨some ["A"], some "B"⟩]) (some "2000-01-01") none,
          ClinicalResource.other]).filterMap patientIdOf).getLast?).getD "Unknown" :=
  ⟨rfl, C1_amended_theorem _ _ rfl⟩

/-- C2 counterexample: a record holding a MedicationRequest (label
"Aspirin") followed by a Condition with no `code` aborts entirely:
`resource.code.text` raises, the record-level handler returns `None`, and
the Aspirin line appears nowhere. -/
theorem C2_counterexample :
    parse_patient_fhir_bundle (some
      [.medicationRequest (some ⟨some "Aspirin"⟩),
       .condition none none]) = none :=
  rfl

/-- C2 (amended): optional fields degrade gracefully — an absent onset
date becomes "N/A", an absent medication concept becomes
"Unknown Medication", an Other-kind resource is skipped — but a resource
lacking a field the code dereferences unconditionally (a Condition without
its `code`, a Patient without a name entry or birth date) raises, and the
record-level handler then aborts the WHOLE record to `None`, discarding
every other resource's line. -/
theorem C2_amended_theorem (st : String × List String) (c : CodeableConcept)
    (i bd : String) (g : Option String) (rs : List ClinicalResource) :
    processResource st (.condition (some c) none) =
      Except.ok (st.1, st.2 ++ ["Condition: " ++ pyStr c.text ++ " (Onset: " ++ "N/A" ++ ")"]) ∧
    processResource st (.medicationRequest none) =
      Except.ok (st.1, st.2 ++ ["Medication: Unknown Medication"]) ∧
    processResource st ClinicalResource.other = Except.ok st ∧
    processResource st (.condition none none) = Except.error () ∧
    processResource st (.patient i none (some bd) g) = Except.error () ∧
    parse_patient_fhir_bundle (some (ClinicalResource.condition none none :: rs)) = none :=
  ⟨rfl, rfl, rfl, rfl, rfl, rfl⟩

/-- C3 counterexample: with zero knowledge documents and zero patient
units, `main` returns normally with the early-exit outcome — an
`Except.ok`, not an `Except.error` — so no `EmptyCorpusError` (nor any
exception) is raised or surfaced to the caller. -/
theorem C3_counterexample :
    mainRun [] [] = Except.ok MainOutcome.emptyExit :=
  rfl

/-- C3 (amended): when and only when the assembled corpus has zero units,
the run logs a warning and returns normally (no exception is raised), and
it terminates with the early-exit outcome, never reaching the indexing
stage (no embedding call, no vector-store write). -/
theorem C3_amended_theorem (K P : List CorpusUnit) :
    mainRun K P = Except.ok MainOutcome.emptyExit ↔ assemble K P = [] := by
  unfold mainRun
  by_cases h : (assemble K P).isEmpty
  · simp [h, List.isEmpty_iff.mp h]
  · simp [h]
    intro he
    rw [he] at h
    simp at h

/-- C4: the Jane Doe scenario — one Patient (id "123", given ["Jane"],
family "Doe", birth date 2020-01-05, gender female) then one Condition
("Hypertension", onset 2021-03-01) summarizes to exactly the specified
text with id "123". -/
theorem C4_theorem :
    parse_patient_fhir_bundle (some
      [.patient "123" (some [⟨some ["Jane"], some "Doe"⟩]) (some "2020-01-05") (some "female"),
       .condition (some ⟨some "Hypertension"⟩) (some "2021-03-01")]) =
    some ⟨"123", "Patient Record ID: 123\nName: Jane Doe, DOB: 2020-01-05, Gender: female\nCondition: Hypertension (Onset: 2021-03-01)"⟩ :=
  rfl

/-- C5: for all K and P, the assembled corpus's first `K.length` units are
exactly K in order and the rest are exactly P in order — knowledge before
patient, each side's internal order preserved. -/
theorem C5_theorem (K P : List CorpusUnit) :
    (assemble K P).take K.length = K ∧ (assemble K P).drop K.length = P :=
  ⟨List.take_left K P, List.drop_left K P⟩

/-- C6: an Observation whose display label is present but outside the
allow-list contributes no line: the loop iteration returns the state
unchanged. -/
theorem C6_theorem (st : String × List String) (t : String) (vq : Option Quantity)
    (h : t ∉ allowList) :
    processResource st (.observation (some ⟨some t⟩) vq) = Except.ok st := by
  simp [processResource, h]

/-- C6 witness: the label "Heart Rate" is outside the allow-list, and such
an Observation leaves the state untouched. -/
theorem C6_witness :
    ("Heart Rate" : String) ∉ allowList ∧
    processResource ("Unknown", []) (.observation (some ⟨some "Heart Rate"⟩) none) =
      Except.ok ("Unknown", []) :=
  ⟨by decide, C6_theorem ("Unknown", []) "Heart Rate" none (by decide)⟩

/-- C7 counterexample: a MedicationRequest whose `medicationCodeableConcept`
is present but has no `text` — the display label is absent, yet the line
renders "Medication: None" (Python's `getattr` finds the existing `text`
attribute holding `None`), not the placeholder "Unknown Medication". -/
theorem C7_counterexample :
    processResource ("Unknown", []) (.medicationRequest (some ⟨none⟩)) =
      Except.ok ("Unknown", ["Medication: None"]) ∧
    ("Medication: None" : String) ≠ "Medication: Unknown Medication" :=
  ⟨rfl, by decide⟩

/-- C7 (amended): a MedicationRequest always yields exactly one line; the
placeholder "Unknown Medication" is used only when the
`medicationCodeableConcept` is entirely absent; when the concept is
present its text is rendered, an absent text printing as "None" rather
than the placeholder. -/
theorem C7_amended_theorem (st : String × List String) (m : Option CodeableConcept) :
    processResource st (.medicationRequest m) =
      Except.ok (st.1, st.2 ++
        ["Medication: " ++
          (match m with
           | none => "Unknown Medication"
           | some c => pyStr c.text)]) :=
  rfl

/-- C8: an allow-listed Observation with no quantity yields one line whose
value is "N/A" with no unit appended. -/
theorem C8_theorem (st : String × List String) (t : String) (h : t ∈ allowList) :
    processResource st (.observation (some ⟨some t⟩) none) =
      Except.ok (st.1, st.2 ++ ["Observation: " ++ t ++ " - " ++ "N/A"]) := by
  simp [processResource, h]

/-- C8 witness: "Body Mass Index" is allow-listed and, with no quantity,
yields exactly the line "Observation: Body Mass Index - N/A". -/
theorem C8_witness :
    ("Body Mass Index" : String) ∈ allowList ∧
    processResource ("Unknown", []) (.observation (some ⟨some "Body Mass Index"⟩) none) =
      Except.ok ("Unknown", ["Observation: Body Mass Index - N/A"]) :=
  ⟨by decide, C8_theorem ("Unknown", []) "Body Mass Index" (by decide)⟩

/-- C9 counterexample: a unit with empty id is NOT dropped — assembling it
yields a corpus still containing it,  and no skipped-unit count exists
anywhere in the model. -/
theorem C9_counterexample :
    assemble [⟨"", "x"⟩] [] = [⟨"", "x"⟩] ∧
    (⟨"", "x"⟩ : CorpusUnit) ∈ assemble [⟨"", "x"⟩] [] :=
  ⟨rfl, List.mem_singleton.mpr rfl⟩

/-- C9 (amended): the assembler applies no validation at all — a unit is
in the assembled corpus exactly when it is in one of the inputs (empty id
included; nothing is dropped, counted, deduplicated or normalized):
assembly is pure concatenation. -/
theorem C9_amended_theorem (K P : List CorpusUnit) (u : CorpusUnit) :
    (u ∈ assemble K P ↔ u ∈ K ∨ u ∈ P) ∧ assemble K P = K ++ P :=
  ⟨List.mem_append, rfl⟩

/-- C10: summarization is total at its boundary — the try-block body's
outcome is collapsed so every raise maps to `None` and every success to
`Some`; a file whose read/decode fails yields `None`; and
`load_patient_data` keeps exactly the non-`None` results: a unit is in its
output precisely when some input file parses to it. -/
theorem C10_theorem (files : List (Option (List ClinicalResource)))
    (i : Option (List ClinicalResource)) (u : CorpusUnit) :
    parse_patient_fhir_bundle i = (parseBody i).toOption ∧
    parse_patient_fhir_bundle none = none ∧
    load_patient_data files = files.filterMap parse_patient_fhir_bundle ∧
    (u ∈ load_patient_data files ↔
      ∃ f, f ∈ files ∧ parse_patient_fhir_bundle f = some u) := by
  refine ⟨?_, rfl, rfl, List.mem_filterMap⟩
  unfold parse_patient_fhir_bundle
  cases parseBody i with
  | ok v => rfl
  | error e => rfl
